import Mathlib

/-!
# Verification of the PyGUI widget toolkit (`widgets.py`)

A shallow embedding of the widget core: `Widget`, `Label`, `AbstractButton`
and `TextButton`.  Pixel surfaces (pygame `Surface`) are modelled as a
dimensioned pixel function; the blit primitive follows SDL semantics
pixelwise (source-area clipping included).  The freetype font engine, the
image loader and the scaler are external collaborators and are carried as an
explicit environment (`Env`).  Machine floats only occur as the centering
offsets `(w - rect.w) / 2`, which are exact dyadic rationals for the integer
inputs occurring here, so they are embedded as `ℚ`, truncated toward zero at
the blit call exactly as pygame converts float coordinates to ints.

Python exceptions are modelled with `PyErr`; fallible constructors return
`Except PyErr _`, and the `text` setter returns the state at raise time so
that transactionality is an actual statement about the embedded code.
-/

/-- An RGBA color value.  Modelled from the spec: the `colors` module is not
under `src/`; `WHITE`, `BLACK` and `ALPHA` below are the standard constants
it exports (the spec names white as the default background fill and `ALPHA`
as the fully transparent color). -/
structure Color where
  r : Nat
  g : Nat
  b : Nat
  a : Nat
deriving DecidableEq

/-- Modelled from the spec: default background fill color. -/
def WHITE : Color := ⟨255, 255, 255, 255⟩

/-- Modelled from the spec: default text color. -/
def BLACK : Color := ⟨0, 0, 0, 255⟩

/-- Modelled from the spec: fully transparent color, used when an alpha
channel is requested instead of an opaque background. -/
def ALPHA : Color := ⟨0, 0, 0, 0⟩

/-- Python exception values raised by the widget core. -/
inductive PyErr where
  | assertionError (msg : String)
  | valueError (msg : String)
  | typeError (msg : String)
  | attributeError (msg : String)
deriving DecidableEq

/-- A pygame `Surface`: fixed dimensions and a pixel function.  Pixels
outside the `w × h` domain are irrelevant; surface equality is compared on
the domain (`Surface.EqOn`). -/
structure Surface where
  w : Nat
  h : Nat
  pix : Nat → Nat → Color

/-- `pg.Surface((w, h))`: a fresh surface; pygame surfaces start out black. -/
def mkSurface (w h : Nat) : Surface := ⟨w, h, fun _ _ => ⟨0, 0, 0, 255⟩⟩

/-- `surface.fill(color)`. -/
def Surface.fill (s : Surface) (c : Color) : Surface := { s with pix := fun _ _ => c }

/-- `dst.blit(src, (dx, dy), area=Rect(ax, ay, aw, ah))` for an opaque
(RGB-profile) source: a pixel copy.  The guard reproduces SDL blit clipping:
a destination pixel receives a source pixel iff it lies in the translated
area rectangle and the corresponding source index is inside the source
surface. -/
def Surface.blitArea (dst src : Surface) (dx dy ax ay : Int) (aw ah : Nat) : Surface :=
  { dst with pix := fun x y =>
      if dx ≤ (x : Int) ∧ (x : Int) < dx + aw ∧ dy ≤ (y : Int) ∧ (y : Int) < dy + ah
          ∧ 0 ≤ ax + ((x : Int) - dx) ∧ ax + ((x : Int) - dx) < (src.w : Int)
          ∧ 0 ≤ ay + ((y : Int) - dy) ∧ ay + ((y : Int) - dy) < (src.h : Int) then
        src.pix (ax + ((x : Int) - dx)).toNat (ay + ((y : Int) - dy)).toNat
      else dst.pix x y }

/-- `dst.blit(src, (dx, dy))` with no area: the whole source is the area. -/
def Surface.blit (dst src : Surface) (dx dy : Int) : Surface :=
  dst.blitArea src dx dy 0 0 src.w src.h

/-- `dst.blit(src, (dx, dy))` for a per-pixel-alpha source (a freetype text
render): each covered destination pixel becomes `blend srcPix dstPix`, where
`blend` is the backend's alpha compositing operator (carried in `Env`). -/
def Surface.blitBlend (blend : Color → Color → Color) (dst src : Surface) (dx dy : Int) :
    Surface :=
  { dst with pix := fun x y =>
      if dx ≤ (x : Int) ∧ (x : Int) < dx + src.w ∧ dy ≤ (y : Int) ∧ (y : Int) < dy + src.h then
        blend (src.pix ((x : Int) - dx).toNat ((y : Int) - dy).toNat) (dst.pix x y)
      else dst.pix x y }

/-- Byte-identity of two surfaces: same dimensions and same pixel values on
the whole pixel buffer. -/
def Surface.EqOn (s t : Surface) : Prop :=
  s.w = t.w ∧ s.h = t.h ∧ ∀ x, x < s.w → ∀ y, y < s.h → s.pix x y = t.pix x y

instance (s t : Surface) : Decidable (Surface.EqOn s t) := by
  unfold Surface.EqOn; infer_instance

/-- A pygame `Rect` (as returned by `freetype.Font.get_rect`): integer
position, non-negative size. -/
structure Rect where
  x : Int
  y : Int
  w : Nat
  h : Nat
deriving DecidableEq

/-- Python `int(float)` conversion as applied by pygame to float blit
coordinates: truncation toward zero (`-⌊-q⌋ = ⌈q⌉` for negative `q`). -/
def pyInt (q : ℚ) : Int := if 0 ≤ q then q.floor else -(-q).floor

/-- A `pygame.freetype.Font` object: the style attributes the code mutates
(`underline`, `strong`, `fgcolor`) plus the opaque rasterizer.  `metrics`
is the text bounding box as a function of the text and the style flags;
`glyph` is the pixel content of a render.  Freetype guarantees that the
surface returned by `render` has exactly the `get_rect` bounding-box size,
which is encoded by construction in `FreetypeFont.render`. -/
structure FreetypeFont where
  underline : Bool
  strong : Bool
  fgcolor : Color
  metrics : String → Bool → Bool → Rect
  glyph : String → Bool → Bool → Color → Nat → Nat → Color

/-- `font.get_rect(text)`. -/
def FreetypeFont.get_rect (f : FreetypeFont) (text : String) : Rect :=
  f.metrics text f.underline f.strong

/-- `font.render(text)`: returns the `(surface, rect)` pair. -/
def FreetypeFont.render (f : FreetypeFont) (text : String) : Surface × Rect :=
  let r := f.get_rect text
  (⟨r.w, r.h, f.glyph text f.underline f.strong f.fgcolor⟩, r)

/-- The external drawing backend: alpha compositing, the freetype font
constructor, image loading, path joining, pixel-format conversion and
scaling.  All are opaque collaborators of the widget core. -/
structure Env where
  blend : Color → Color → Color
  mkFont : Option String → Nat → FreetypeFont
  loadImage : String → Surface
  joinPath : List String → String
  convert : Surface → Surface
  scale : Surface → Nat → Nat → Surface

/-- The `background` argument of `Label.__init__`: a surface, a tuple of
path components, or a path string (the three `isinstance` branches of the
source; any other type would leave the local `surf` unbound in Python). -/
inductive Background where
  | surface (s : Surface)
  | pathTuple (p : List String)
  | pathStr (p : String)

/-- Python truthiness of a `background` value: surfaces are truthy, tuples
and strings are truthy iff non-empty. -/
def Background.truthy : Background → Bool
  | .surface _ => true
  | .pathTuple p => !p.isEmpty
  | .pathStr p => !p.isEmpty

/-- Truthiness of an optional `background` (`None` is falsy). -/
def bgTruthy : Option Background → Bool
  | none => false
  | some b => b.truthy

/-- The source surface named by a truthy `background` argument, following
the `isinstance` dispatch of `Label.__init__`: a surface is used as is, a
tuple is joined into a path and loaded then converted, a string is loaded
then converted. -/
def Background.resolve (env : Env) : Background → Surface
  | .surface s => s
  | .pathTuple p => env.convert (env.loadImage (env.joinPath p))
  | .pathStr p => env.convert (env.loadImage p)

/-! ## Widget -/

/-- State of a `Widget` instance after `Widget.__init__`.  `surf` is an
`Option` because the constructor installs no surface at all when neither
`surf` nor a truthy `img` is supplied. -/
structure Widget where
  w : Nat
  h : Nat
  hovered : Bool
  surf : Option Surface
  changed : Bool

/-- `Widget.__init__(w, h, surf=None, img=None, alpha=True)`.

The body sets `w`, `h`, `hovered = False`, then
`assert surf==None or img==None` (an `AssertionError` when both are given —
the spec's ArgumentConflict), then installs the surface: an explicitly
given surface is stored; otherwise a truthy `img` tuple is loaded by
`load_img`, which reads `self.alpha` — an attribute that `__init__` never
assigns (the `alpha` parameter is dropped), so the image branch raises
`AttributeError` after loading the file.  Finally `changed = True`. -/
def Widget.init (env : Env) (w h : Nat) (surf : Option Surface) (img : Option (List String))
    (alpha : Bool) : Except PyErr Widget :=
  if surf.isSome ∧ img.isSome then
    .error (.assertionError "Both surf and img were provided.")
  else
    match surf with
    | some s => .ok ⟨w, h, false, some s, true⟩
    | none =>
      match img with
      | some p =>
        if p.isEmpty then
          -- an empty tuple is falsy: neither branch runs, `self.surf` stays unset
          .ok ⟨w, h, false, none, true⟩
        else
          -- load_img: `pg.image.load(os.path.join(*path))` succeeds first,
          -- then `if self.alpha:` raises AttributeError (never assigned)
          let _ := env.loadImage (env.joinPath p)
          let _ := alpha
          .error (.attributeError "'Widget' object has no attribute 'alpha'")
      | none => .ok ⟨w, h, false, none, true⟩

/-! ## Label -/

/-- The centered-placement offset pair (the `Offset` namedtuple).  The
components are the Python float values `(w - rect.w)/2`, exact here as
rationals. -/
structure Offset where
  x : ℚ
  y : ℚ

/-- State of a `Label` instance.  A completed `Label.__init__` always
installs `surf` and `bgsurf`; `bgcolor` is assigned only on the fill-color
branch, and `txt_surf` is never assigned anywhere in the file. -/
structure Label where
  w : Nat
  h : Nat
  hovered : Bool
  changed : Bool
  _text : String
  fgcolor : Color
  bold : Bool
  underlined : Bool
  font : FreetypeFont
  bgcolor : Option Color
  bgsurf : Surface
  surf : Surface

/-- `Label.text_offsets(text)`: centered placement
`((w - rect.w)/2, (h - rect.h)/2)` as Python floats (exact rationals). -/
def Label.text_offsets (s : Label) (text : String) : Offset :=
  let rect := s.font.get_rect text
  -- the Python float `(self.w - rect.w)/2` is the exact rational `(w - rect.w)/2`;
  -- `Rat.divInt` is that value in a kernel-computable form
  ⟨Rat.divInt ((s.w : Int) - (rect.w : Int)) 2, Rat.divInt ((s.h : Int) - (rect.h : Int)) 2⟩

/-- `Label.render_text()`: when `changed` is false it returns
`self.txt_surf`, an attribute that no code in the file ever assigns, so that
branch raises `AttributeError`; otherwise it renders the current text. -/
def Label.render_text (s : Label) : Except PyErr (Surface × Rect) :=
  if s.changed = false then
    .error (.attributeError "'Label' object has no attribute 'txt_surf'")
  else
    .ok (s.font.render s._text)

/-- The first half of `Label.make_surf`: blitting the background back onto
the working surface.  With no (or empty) `old_text` the whole background is
blitted at the origin; otherwise only the sub-rectangle
`area = font.get_rect(old_text)` is blitted at `text_offsets(old_text)`.
Note the area rectangle sits at the metric rect's own position, not at the
old text's placement offset. -/
def Label.erase_step (s : Label) (old_text : Option String) : Surface :=
  if (old_text.getD "").isEmpty then
    s.surf.blit s.bgsurf 0 0
  else
    let subrect := s.font.get_rect (old_text.getD "")
    let off := s.text_offsets (old_text.getD "")
    s.surf.blitArea s.bgsurf (pyInt off.x) (pyInt off.y) subrect.x subrect.y subrect.w subrect.h

/-- `Label.make_surf(old_text=None)`: early return when not `changed`;
otherwise erase (see `Label.erase_step`) and blit the fresh text render at
its centered offset.  `render_text()` necessarily takes its fresh-render
branch here because `changed` was just checked true (see
`Label.render_text_of_changed`).  No branch writes `changed`. -/
def Label.make_surf (env : Env) (s : Label) (old_text : Option String) : Label :=
  if s.changed = false then s
  else
    { s with surf :=
        (Surface.blitBlend env.blend (s.erase_step old_text) (s.font.render s._text).1
          (pyInt (s.text_offsets s._text).x) (pyInt (s.text_offsets s._text).y)) }

/-- `Label.__init__(w, h, *args, alpha=False, text="", bgcolor=None,
fgcolor=BLACK, font=None, font_size=20, underlined=False, bold=False,
background=None, **kwargs)`.

`alpha` is `Option Bool` because the code distinguishes `None` from `False`
(`if alpha==None` vs `if alpha:`).  Control flow follows the source: the
`Widget` base init (no surf/img, sets `hovered`/`changed`), the
argument-validation ladder, the font construction and style assignment, the
background surface (scaled image or color fill; `self.bgcolor` exists only
on the fill branch), `self.surf = self.bgsurf.copy()`, the oversize check
on the initial text, and the closing `make_surf()` call. -/
def Label.init (env : Env) (w h : Nat) (alpha : Option Bool) (text : String)
    (bgcolor : Option Color) (fgcolor : Color) (fontname : Option String) (font_size : Nat)
    (underlined bold : Bool) (background : Option Background) : Except PyErr Label :=
  let rest : Except PyErr Label :=
    let font : FreetypeFont :=
      { env.mkFont fontname font_size with
          underline := underlined, strong := bold, fgcolor := fgcolor }
    let fillInfo : Option Color × Surface :=
      let bgc : Color :=
        match bgcolor with
        | some c => c  -- `if bgcolor:` — color tuples are non-empty, hence truthy
        | none => if alpha = some true then ALPHA else WHITE  -- `if alpha:`
      (some bgc, (mkSurface w h).fill bgc)
    let bgInfo : Option Color × Surface :=
      match background with
      | some bg =>
        if bg.truthy then (none, env.scale (bg.resolve env) w h) else fillInfo
      | none => fillInfo
    let st : Label :=
      { w := w, h := h, hovered := false, changed := true, _text := text,
        fgcolor := fgcolor, bold := bold, underlined := underlined, font := font,
        bgcolor := bgInfo.1, bgsurf := bgInfo.2,
        surf := bgInfo.2 }  -- `self.surf = self.bgsurf.copy()` (a value copy)
    let nrect := font.get_rect text
    if nrect.w > w ∨ nrect.h > h then .error (.valueError "Text size larger than widget")
    else .ok (Label.make_surf env st none)
  -- argument-validation ladder, before any of the above is observable
  if bgcolor = none then
    if background.isNone then
      if alpha = none then .error (.typeError "A background, bgcolor, or alpha must be set")
      else rest
    else rest
  else
    if bgTruthy background then .error (.valueError "Can't set background and bgcolor")
    else rest

/-- The `text` property setter: measure the new string, raise `ValueError`
when its box exceeds the widget bounds, otherwise mark dirty, swap the
string and recompose with the previous string as `old_text`.  An error
carries the state at raise time, making the transactional behavior of the
setter a statement about this definition. -/
def Label.set_text (env : Env) (s : Label) (string : String) :
    Except (PyErr × Label) Label :=
  let nrect := s.font.get_rect string
  if nrect.w > s.w ∨ nrect.h > s.h then
    .error (.valueError "Text size larger than widget", s)
  else
    let previous_text := s._text
    .ok (Label.make_surf env { s with changed := true, _text := string } (some previous_text))

/-! ## AbstractButton and TextButton -/

/-- pygame event kinds; only `MOUSEBUTTONUP` (pointer button released) is
named by the code. -/
inductive PgEvent where
  | MOUSEBUTTONUP
  | MOUSEBUTTONDOWN
  | MOUSEMOTION
  | KEYDOWN
  | other (code : Nat)
deriving DecidableEq

/-- State of a plain `AbstractButton` instance (its `__init__` goes through
`Widget.__init__` with neither `surf` nor `img`, so `surf` may be unset).
`A` is the type of the zero-argument `action` callable. -/
structure AbstractButton (A : Type) where
  w : Nat
  h : Nat
  hovered : Bool
  changed : Bool
  surf : Option Surface
  action : Option A
  events : List PgEvent

/-- Outcome of one `update()` call: how many times `self.action()` ran, and
the exception raised, if any. -/
structure UpdateOutcome where
  actionCalls : Nat
  raised : Option PyErr
deriving DecidableEq

/-- `AbstractButton.update()`.

Modelled from the spec: `PYGUI_DISPATCHER` lives in the `events` module,
which is not under `src/`; per the spec it is a per-frame table mapping a
widget to the events observed against it, so the widget's own entry is taken
here as the `dispatcherEntry` parameter.  The body is the source's: when
`hovered`, look the entry up, and when it is non-empty call `self.action()`
— with no `None` guard, so a `None` action raises `TypeError` instead of
being called. -/
def AbstractButton.update {A : Type} (b : AbstractButton A) (dispatcherEntry : List PgEvent) :
    UpdateOutcome :=
  if b.hovered then
    if dispatcherEntry.isEmpty then ⟨0, none⟩
    else
      match b.action with
      | some _ => ⟨1, none⟩
      | none => ⟨0, some (.typeError "'NoneType' object is not callable")⟩
  else ⟨0, none⟩

/-- State of a `TextButton` instance: a `Label` plus the fields that
`AbstractButton.__init__` adds. -/
structure TextButton (A : Type) extends Label where
  action : Option A
  events : List PgEvent

/-- The body of `AbstractButton.__init__(w, h, *args, alpha=False,
action=None, **kwargs)` as executed on a `TextButton` instance: by the
method resolution order its `super().__init__(w, h, alpha=alpha)` is
`Label.__init__`, called with every `Label` argument at its default — the
`**kwargs` (`kwText` … `kwMaxChars` below) are received but never forwarded.
Then `self.w`/`self.h` are reassigned (to the same values), `action` is
stored and `events` is set to `[MOUSEBUTTONUP]`. -/
def AbstractButton.initInTextButton {A : Type} (env : Env) (w h : Nat) (alpha : Option Bool)
    (action : Option A) (kwText : String) (kwBgcolor : Option Color) (kwFgcolor : Color)
    (kwFont : Option String) (kwFontSize : Nat) (kwUnderlined kwBold kwMaxChars : Bool) :
    Except PyErr (TextButton A) :=
  let _ := (kwText, kwBgcolor, kwFgcolor, kwFont, kwFontSize, kwUnderlined, kwBold, kwMaxChars)
  match Label.init env w h alpha "" none BLACK none 20 false false none with
  | .error e => .error e
  | .ok lbl => .ok { lbl with action := action, events := [PgEvent.MOUSEBUTTONUP] }

/-- `TextButton.__init__(w, h, alpha=False, action=None, text="",
bgcolor=None, fgcolor=BLACK, font=None, font_size=20, underlined=False,
bold=False, max_chars=False)`: the super call hard-codes
`alpha=False, bgcolor=None, fgcolor=BLACK, font=None, font_size=20,
underlined=False, bold=False, max_chars=False` and forwards only `action`
and `text` from its own arguments — and `text` is then dropped with the
rest of the kwargs in `AbstractButton.__init__`. -/
def TextButton.init {A : Type} (env : Env) (w h : Nat) (alpha : Option Bool)
    (action : Option A) (text : String) (bgcolor : Option Color) (fgcolor : Color)
    (font : Option String) (font_size : Nat) (underlined bold max_chars : Bool) :
    Except PyErr (TextButton A) :=
  let _ := (alpha, bgcolor, fgcolor, font, font_size, underlined, bold, max_chars)
  AbstractButton.initInTextButton env w h (some false) action text none BLACK none 20
    false false false

/-! ## Concrete instances used by witnesses and counterexamples -/

/-- Extra concrete colors for counterexample surfaces. -/
def RED : Color := ⟨255, 0, 0, 255⟩

def GREEN : Color := ⟨0, 255, 0, 255⟩

def BLUE : Color := ⟨0, 0, 255, 255⟩

/-- A concrete font model for witnesses: every character cell is one pixel
wide, rendered text is one pixel high, glyph pixels carry the foreground
color. -/
def fontC : FreetypeFont :=
  { underline := false, strong := false, fgcolor := BLACK,
    metrics := fun s _ _ => ⟨0, 0, s.length, if s.isEmpty then 0 else 1⟩,
    glyph := fun _ _ _ c _ _ => c }

/-- A concrete backend for witnesses: overlay compositing that respects full
transparency, nearest-neighbor scaling. -/
def envC : Env :=
  { blend := fun g d => if g.a = 0 then d else g,
    mkFont := fun _ _ => fontC,
    loadImage := fun _ => mkSurface 1 1,
    joinPath := fun l => String.intercalate "/" l,
    convert := id,
    scale := fun s w h => ⟨w, h, fun x y => s.pix (x * s.w / w) (y * s.h / h)⟩ }

instance : Inhabited Label :=
  ⟨{ w := 0, h := 0, hovered := false, changed := true, _text := "", fgcolor := BLACK,
     bold := false, underlined := false, font := fontC, bgcolor := none,
     bgsurf := mkSurface 0 0, surf := mkSurface 0 0 }⟩

instance {A : Type} : Inhabited (TextButton A) :=
  ⟨{ (default : Label) with action := none, events := [] }⟩

/-- Extract the success state of a fallible `Label` construction (used to
name concrete witness states; the accompanying `rfl` equations show the
constructions indeed succeed with these states). -/
def okLabel (e : Except PyErr Label) : Label := e.toOption.getD default

/-- Extract the success state of a `text` assignment. -/
def okLabel' (e : Except (PyErr × Label) Label) : Label := e.toOption.getD default

/-- Extract the success state of a `TextButton` construction. -/
def okTextButton (e : Except PyErr (TextButton Unit)) : TextButton Unit :=
  e.toOption.getD default

/-- A hovered button with an action, for the C2 witness. -/
def buttonW0 : AbstractButton Unit :=
  ⟨10, 5, true, true, none, some (), [PgEvent.MOUSEBUTTONUP]⟩

/-- A non-hovered button with an action, for the C2 witness. -/
def buttonW1 : AbstractButton Unit :=
  ⟨10, 5, false, true, none, some (), [PgEvent.MOUSEBUTTONUP]⟩

/-- A dispatcher entry containing the pointer-button-released event. -/
def entryW : List PgEvent := [PgEvent.MOUSEBUTTONDOWN, PgEvent.MOUSEBUTTONUP]

/-- A hovered button whose `action` is none. -/
def buttonNoneAction : AbstractButton Unit :=
  ⟨10, 5, true, true, none, none, [PgEvent.MOUSEBUTTONUP]⟩

/-- The TextButton of the C6 witness: constructed with every cosmetic
argument set to a non-default value. -/
def tbW : TextButton Unit :=
  okTextButton (TextButton.init envC 8 3 (some true) (some ()) "HELLO" (some RED) WHITE
    (some "comic") 7 true true true)

/-- The font a default `Label.__init__` installs: `freetype.Font(None, 20)`
with `underline`/`strong` cleared and BLACK foreground. -/
def labelDefaultFont (env : Env) : FreetypeFont :=
  { env.mkFont none 20 with underline := false, strong := false, fgcolor := BLACK }

/-- The Label of the C8 witness: constructed with `alpha=False` and no
background source at all. -/
def c8w : Label :=
  okLabel (Label.init envC 5 5 (some false) "x" none BLACK none 20 false false none)

/-- The Label of the C1 witness. -/
def c1w : Label :=
  okLabel (Label.init envC 4 4 (some false) "" none BLACK none 20 false false none)

/-- The Label of the C3 witness: a 2×1 label whose font measures three
character cells for the string "AAA". -/
def c3w : Label :=
  { w := 2, h := 1, hovered := false, changed := true, _text := "A", fgcolor := BLACK,
    bold := false, underlined := false, font := fontC, bgcolor := some WHITE,
    bgsurf := (mkSurface 2 1).fill WHITE, surf := (mkSurface 2 1).fill WHITE }

/-- The Label of the C5 witness. -/
def c5w : Label :=
  { w := 2, h := 1, hovered := false, changed := true, _text := "A", fgcolor := BLACK,
    bold := false, underlined := false, font := fontC, bgcolor := some WHITE,
    bgsurf := (mkSurface 2 1).fill WHITE, surf := (mkSurface 2 1).fill WHITE }

/-- A non-uniform 4×1 background image: RED, GREEN, BLUE, BLUE. -/
def bgImg : Surface :=
  ⟨4, 1, fun x _ => if x = 0 then RED else if x = 1 then GREEN else BLUE⟩

/-- The font of the C4 counterexample: "AB" measures 3×1 with only its
leftmost glyph pixel opaque (the rest of the box is transparent, as between
and around real antialiased glyphs); every other string measures
`length × 1` and renders opaque foreground pixels. -/
def font4 : FreetypeFont :=
  { underline := false, strong := false, fgcolor := BLACK,
    metrics := fun s _ _ =>
      ⟨0, 0, if s = "AB" then 3 else s.length, if s.isEmpty then 0 else 1⟩,
    glyph := fun s _ _ c x _ => if s = "AB" then (if x = 0 then c else ALPHA) else c }

/-- The backend of the C4 counterexample. -/
def env4 : Env := { envC with mkFont := fun _ _ => font4 }

/-- The C4 counterexample run: construct a 4×1 label over the non-uniform
background image with text "AB", set text to "A", then back to "AB". -/
def c4chain : Option (Label × Label) :=
  match Label.init env4 4 1 (some false) "AB" none BLACK none 20 false false
      (some (Background.surface bgImg)) with
  | .ok s0 =>
    match Label.set_text env4 s0 "A" with
    | .ok s1 =>
      match Label.set_text env4 s1 "AB" with
      | .ok s2 => some (s0, s2)
      | .error _ => none
    | .error _ => none
  | .error _ => none

/-- A uniform-fill label surface correctly composed for text `t`: the
centered glyph render blended over the fill color `c` inside the glyph box,
the fill color everywhere else.  (Specification vocabulary for the
erase-correctness theorem, not part of the embedded code.) -/
def UniformComposed (blend : Color → Color → Color) (f : FreetypeFont) (c : Color)
    (w h : Nat) (t : String) (surf : Surface) : Prop :=
  surf.w = w ∧ surf.h = h ∧
  ∀ x, x < w → ∀ y, y < h →
    surf.pix x y =
      (if (w - (f.get_rect t).w) / 2 ≤ x ∧ x < (w - (f.get_rect t).w) / 2 + (f.get_rect t).w
          ∧ (h - (f.get_rect t).h) / 2 ≤ y
          ∧ y < (h - (f.get_rect t).h) / 2 + (f.get_rect t).h then
        blend ((f.render t).1.pix (x - (w - (f.get_rect t).w) / 2)
          (y - (h - (f.get_rect t).h) / 2)) c
      else c)

/-- The uniform-background C4 witness chain: a 4×2 BLUE-filled label with
text "AB", then "A", then "AB" again. -/
def c4u0 : Label :=
  okLabel (Label.init envC 4 2 (some false) "AB" (some BLUE) BLACK none 20 false false none)

def c4u1 : Label := okLabel' (Label.set_text envC c4u0 "A")

def c4u2 : Label := okLabel' (Label.set_text envC c4u1 "AB")

/-! ## Field-preservation lemmas for `make_surf` -/

theorem Label.make_surf_changed (env : Env) (s : Label) (old : Option String) :
    (Label.make_surf env s old).changed = s.changed := by
  unfold Label.make_surf; split <;> rfl

theorem Label.make_surf_text (env : Env) (s : Label) (old : Option String) :
    (Label.make_surf env s old)._text = s._text := by
  unfold Label.make_surf; split <;> rfl

theorem Label.make_surf_font (env : Env) (s : Label) (old : Option String) :
    (Label.make_surf env s old).font = s.font := by
  unfold Label.make_surf; split <;> rfl

theorem Label.make_surf_bgcolor (env : Env) (s : Label) (old : Option String) :
    (Label.make_surf env s old).bgcolor = s.bgcolor := by
  unfold Label.make_surf; split <;> rfl

theorem Label.make_surf_bgsurf (env : Env) (s : Label) (old : Option String) :
    (Label.make_surf env s old).bgsurf = s.bgsurf := by
  unfold Label.make_surf; split <;> rfl

theorem Label.make_surf_w (env : Env) (s : Label) (old : Option String) :
    (Label.make_surf env s old).w = s.w := by
  unfold Label.make_surf; split <;> rfl

theorem Label.make_surf_h (env : Env) (s : Label) (old : Option String) :
    (Label.make_surf env s old).h = s.h := by
  unfold Label.make_surf; split <;> rfl

/-! ## Claim theorems -/

/-- **C10.** For every combination of otherwise-valid arguments, `Widget`
construction with both a surface and an image path supplied raises the
mutually-exclusive-arguments error (the failed
`assert surf==None or img==None`, the spec's ArgumentConflict). -/
theorem widget_surf_img_conflict (env : Env) (w h : Nat) (s : Surface) (p : List String)
    (alpha : Bool) :
    Widget.init env w h (some s) (some p) alpha
      = .error (.assertionError "Both surf and img were provided.") := by
  simp [Widget.init]

/-- **C7 (code bug).** Constructing a `Widget` from an image path does not
convert the image per the `alpha` flag as the class docstring promises:
`Widget.__init__` never assigns `self.alpha`, so `load_img` raises
`AttributeError` right after loading, for this concrete failing input. -/
theorem widget_img_attribute_error :
    Widget.init envC 10 10 none (some ["assets", "img.png"]) true
      = .error (.attributeError "'Widget' object has no attribute 'alpha'") := rfl

/-- **C2.** For every `AbstractButton` with `hovered` true, an `action`
present, and a dispatcher entry containing the pointer-button-released
event, one `update()` call invokes the action exactly once (and raises
nothing); with `hovered` false the action is never invoked, whatever the
entry contains. -/
theorem button_update_activation {A : Type} (b : AbstractButton A) (d : List PgEvent) :
    (b.hovered = true → ∀ a : A, b.action = some a → PgEvent.MOUSEBUTTONUP ∈ d →
        AbstractButton.update b d = ⟨1, none⟩)
    ∧ (b.hovered = false → AbstractButton.update b d = ⟨0, none⟩) := by
  constructor
  · intro hh a ha hm
    have hne : d.isEmpty = false := by
      cases d with
      | nil => cases hm
      | cons x xs => rfl
    simp [AbstractButton.update, hh, hne, ha]
  · intro hh
    simp [AbstractButton.update, hh]

theorem button_update_activation_witness :
    (buttonW0.hovered = true ∧ buttonW0.action = some () ∧ PgEvent.MOUSEBUTTONUP ∈ entryW
      ∧ AbstractButton.update buttonW0 entryW = ⟨1, none⟩)
    ∧ (buttonW1.hovered = false ∧ AbstractButton.update buttonW1 entryW = ⟨0, none⟩) :=
  ⟨⟨rfl, rfl, by decide,
      (button_update_activation buttonW0 entryW).1 rfl () rfl (by decide)⟩,
    ⟨rfl, (button_update_activation buttonW1 entryW).2 rfl⟩⟩

/-- **C9 counterexample.** The claim says a none `action` is skipped
silently; on a hovered button with a non-empty dispatcher entry the code
executes `self.action()` with `action = None` and raises `TypeError`. -/
theorem none_action_raises_cex :
    (AbstractButton.update buttonNoneAction [PgEvent.MOUSEBUTTONUP]).raised
      = some (PyErr.typeError "'NoneType' object is not callable") := rfl

/-- **C9 amended.** With `action = None`, `update()` raises a `TypeError`
when `hovered` is true and the dispatcher entry is non-empty (the
invocation is not skipped silently); it returns without invoking anything
and without error only when `hovered` is false or the entry is empty. -/
theorem none_action_error_semantics {A : Type} (b : AbstractButton A) (d : List PgEvent) :
    (b.action = none → b.hovered = true → d ≠ [] →
        AbstractButton.update b d
          = ⟨0, some (.typeError "'NoneType' object is not callable")⟩)
    ∧ (b.hovered = false ∨ d = [] → AbstractButton.update b d = ⟨0, none⟩) := by
  constructor
  · intro ha hh hd
    have hne : d.isEmpty = false := by
      cases d with
      | nil => exact absurd rfl hd
      | cons x xs => rfl
    simp [AbstractButton.update, hh, hne, ha]
  · rintro (hh | hd)
    · simp [AbstractButton.update, hh]
    · subst hd
      cases hb : b.hovered <;> simp [AbstractButton.update, hb]

theorem none_action_error_semantics_witness :
    (buttonNoneAction.action = none ∧ buttonNoneAction.hovered = true
      ∧ ([PgEvent.MOUSEBUTTONUP] : List PgEvent) ≠ []
      ∧ AbstractButton.update buttonNoneAction [PgEvent.MOUSEBUTTONUP]
          = ⟨0, some (.typeError "'NoneType' object is not callable")⟩)
    ∧ (buttonNoneAction.hovered = false ∨ ([] : List PgEvent) = []
      ∧ AbstractButton.update buttonNoneAction [] = ⟨0, none⟩) :=
  ⟨⟨rfl, rfl, by decide,
      (none_action_error_semantics buttonNoneAction [PgEvent.MOUSEBUTTONUP]).1 rfl rfl
        (by decide)⟩,
    Or.inr ⟨rfl, (none_action_error_semantics buttonNoneAction []).2 (Or.inr rfl)⟩⟩

/-- **C8 counterexample.** Constructing a Label with no `bgcolor`, no
`background` and `alpha=False` (the source default, i.e. explicitly no
transparency request) does not raise MissingConfiguration: it succeeds, with
the WHITE default fill installed. -/
theorem label_no_background_ok_cex :
    (Label.init envC 5 5 (some false) "" none BLACK none 20 false false none).map
        (fun s => (s.bgcolor, s._text)) = .ok (some WHITE, "") := rfl

/-- **C8 amended.** The missing-configuration `TypeError` is raised only
when `bgcolor`, `background` and `alpha` are all `None`; when `alpha` is a
boolean and no background source is given, construction instead installs
the default fill (`ALPHA` when `alpha` is true, `WHITE` when false). -/
theorem label_missing_config_requires_alpha_none (env : Env) (w h : Nat) (text : String)
    (fgcolor : Color) (fontname : Option String) (font_size : Nat) (underlined bold : Bool) :
    (Label.init env w h none text none fgcolor fontname font_size underlined bold none
      = .error (.typeError "A background, bgcolor, or alpha must be set"))
    ∧ (∀ (alpha : Bool) (st : Label),
        Label.init env w h (some alpha) text none fgcolor fontname font_size underlined bold
            none = .ok st →
        st.bgcolor = some (if alpha then ALPHA else WHITE)) := by
  constructor
  · rfl
  · intro alpha st hst
    unfold Label.init at hst
    simp only [Option.isNone_none, reduceCtorEq, if_true, if_false, ite_true, ite_false] at hst
    split at hst
    · cases hst
    · injection hst with h
      subst h
      rw [Label.make_surf_bgcolor]
      cases alpha <;> rfl

/-- **C6.** The `TextButton` constructor arguments `text`, `bgcolor`,
`fgcolor`, `font`, `font_size`, `underlined` and `bold` have no effect on
the constructed instance: the construction equals the all-defaults one, and
any successfully constructed `TextButton` has empty text, the default WHITE
background fill and the default font (`Font(None, 20)`, no underline, not
strong, BLACK foreground), whatever arguments were supplied. -/
theorem textbutton_args_ignored {A : Type} (env : Env) (w h : Nat) (alpha : Option Bool)
    (action : Option A) (text : String) (bgcolor : Option Color) (fgcolor : Color)
    (font : Option String) (font_size : Nat) (underlined bold max_chars : Bool) :
    (TextButton.init env w h alpha action text bgcolor fgcolor font font_size underlined bold
        max_chars
      = TextButton.init env w h (some false) action "" none BLACK none 20 false false false)
    ∧ (∀ st : TextButton A,
        TextButton.init env w h alpha action text bgcolor fgcolor font font_size underlined
            bold max_chars = .ok st →
        st._text = "" ∧ st.bgcolor = some WHITE ∧ st.font = labelDefaultFont env) := by
  refine ⟨rfl, ?_⟩
  intro st hst
  unfold TextButton.init AbstractButton.initInTextButton at hst
  cases hlb : Label.init env w h (some false) "" none BLACK none 20 false false none with
  | error e =>
    rw [hlb] at hst
    cases hst
  | ok lbl =>
    rw [hlb] at hst
    injection hst with h
    subst h
    unfold Label.init at hlb
    simp only [Option.isNone_none, reduceCtorEq, if_true, if_false, ite_true, ite_false] at hlb
    split at hlb
    · cases hlb
    · injection hlb with h
      subst h
      refine ⟨?_, ?_, ?_⟩
      · show (Label.make_surf env _ none)._text = ""
        rw [Label.make_surf_text]
      · show (Label.make_surf env _ none).bgcolor = some WHITE
        rw [Label.make_surf_bgcolor]
        rfl
      · show (Label.make_surf env _ none).font = _
        rw [Label.make_surf_font]
        rfl

theorem label_missing_config_requires_alpha_none_witness :
    (Label.init envC 5 5 (some false) "x" none BLACK none 20 false false none = .ok c8w)
    ∧ c8w.bgcolor = some (if false then ALPHA else WHITE) :=
  ⟨rfl,
    (label_missing_config_requires_alpha_none envC 5 5 "x" BLACK none 20 false false).2
      false c8w rfl⟩

theorem textbutton_args_ignored_witness :
    (TextButton.init envC 8 3 (some true) (some ()) "HELLO" (some RED) WHITE (some "comic") 7
        true true true = .ok tbW)
    ∧ tbW._text = "" ∧ tbW.bgcolor = some WHITE ∧ tbW.font = labelDefaultFont envC := by
  have h := (textbutton_args_ignored envC 8 3 (some true) (some ()) "HELLO" (some RED) WHITE
    (some "comic") 7 true true true).2 tbW rfl
  exact ⟨rfl, h.1, h.2.1, h.2.2⟩

/-- **C1 counterexample.** Immediately after construction `changed` is
true (as claimed), but after a further `make_surf` call — the "first
consumed recompose" — it is still true, not false: no code path of
`make_surf` clears the flag. -/
theorem changed_not_cleared_by_make_surf_cex :
    (Label.init envC 4 4 (some false) "" none BLACK none 20 false false none).map
        (fun s => (Label.make_surf envC s none).changed) = .ok true := rfl

/-- **C1 amended.** `changed` is true immediately after construction and
remains true after `make_surf`: rendering does not clear the flag (the
source comment leaves clearing to the container that reads the surface, a
collaborator outside this core), and `make_surf` is a no-op exactly on
states whose flag is false. -/
theorem changed_flag_semantics (env : Env) (w h : Nat) (alpha : Option Bool) (text : String)
    (bgcolor : Option Color) (fgcolor : Color) (fontname : Option String) (font_size : Nat)
    (underlined bold : Bool) (background : Option Background) (st : Label)
    (hok : Label.init env w h alpha text bgcolor fgcolor fontname font_size underlined bold
      background = .ok st) :
    st.changed = true
    ∧ (∀ old, (Label.make_surf env st old).changed = true)
    ∧ (∀ (s : Label) (old : Option String), s.changed = false →
        Label.make_surf env s old = s) := by
  have hch : st.changed = true := by
    simp only [Label.init] at hok
    split_ifs at hok <;>
      first
        | exact Except.noConfusion hok
        | (injection hok with h; subst h; rw [Label.make_surf_changed])
  refine ⟨hch, fun old => ?_, fun s old h => ?_⟩
  · rw [Label.make_surf_changed, hch]
  · unfold Label.make_surf
    rw [if_pos h]

theorem changed_flag_semantics_witness :
    (Label.init envC 4 4 (some false) "" none BLACK none 20 false false none = .ok c1w)
    ∧ c1w.changed = true ∧ (Label.make_surf envC c1w none).changed = true := by
  have h := changed_flag_semantics envC 4 4 (some false) "" none BLACK none 20 false false
    none c1w rfl
  exact ⟨rfl, h.1, h.2.1 none⟩

/-- **C3.** Assigning a string whose measured box exceeds the label's
bounds in either dimension raises the oversize `ValueError` with the state
at raise time exactly the prior state: the previous text and the pixel
surface are untouched (the check precedes every mutation). -/
theorem set_text_oversize_transactional (env : Env) (s : Label) (str : String)
    (hov : (s.font.get_rect str).w > s.w ∨ (s.font.get_rect str).h > s.h) :
    Label.set_text env s str = .error (.valueError "Text size larger than widget", s)
    ∧ (∀ e s', Label.set_text env s str = .error (e, s') →
        s'._text = s._text ∧ s'.surf = s.surf) := by
  have h1 : Label.set_text env s str
      = .error (.valueError "Text size larger than widget", s) := by
    unfold Label.set_text
    rw [if_pos hov]
  refine ⟨h1, fun e s' h => ?_⟩
  rw [h1] at h
  injection h with h2
  have hs : s = s' := congrArg Prod.snd h2
  exact ⟨by rw [← hs], by rw [← hs]⟩

theorem set_text_oversize_transactional_witness :
    ((c3w.font.get_rect "AAA").w > c3w.w ∨ (c3w.font.get_rect "AAA").h > c3w.h)
    ∧ Label.set_text envC c3w "AAA"
        = .error (.valueError "Text size larger than widget", c3w) :=
  ⟨by decide, (set_text_oversize_transactional envC c3w "AAA" (by decide)).1⟩

/-! ## Pixel-level lemmas about the blit primitives -/

theorem blit_pix_in (dst src : Surface) (x y : Nat) (hx : x < src.w) (hy : y < src.h) :
    (dst.blit src 0 0).pix x y = src.pix x y := by
  simp only [Surface.blit, Surface.blitArea]
  rw [if_pos ⟨by omega, by omega, by omega, by omega, by omega, by omega, by omega, by omega⟩]
  have ha : ((0 : Int) + ((x : Int) - 0)).toNat = x := by omega
  have hb : ((0 : Int) + ((y : Int) - 0)).toNat = y := by omega
  rw [ha, hb]

theorem blit_pix_out (dst src : Surface) (x y : Nat) (h : src.w ≤ x ∨ src.h ≤ y) :
    (dst.blit src 0 0).pix x y = dst.pix x y := by
  simp only [Surface.blit, Surface.blitArea]
  rw [if_neg]
  rintro ⟨h1, h2, h3, h4, h5, h6, h7, h8⟩
  rcases h with h | h <;> omega

theorem blitBlend_pix_in (blend : Color → Color → Color) (dst src : Surface) (dx dy : Int)
    (x y : Nat) (h1 : dx ≤ (x : Int)) (h2 : (x : Int) < dx + src.w) (h3 : dy ≤ (y : Int))
    (h4 : (y : Int) < dy + src.h) :
    (Surface.blitBlend blend dst src dx dy).pix x y
      = blend (src.pix ((x : Int) - dx).toNat ((y : Int) - dy).toNat) (dst.pix x y) := by
  simp only [Surface.blitBlend]
  rw [if_pos ⟨h1, h2, h3, h4⟩]

theorem blitBlend_pix_out (blend : Color → Color → Color) (dst src : Surface) (dx dy : Int)
    (x y : Nat)
    (h : ¬(dx ≤ (x : Int) ∧ (x : Int) < dx + src.w ∧ dy ≤ (y : Int) ∧ (y : Int) < dy + src.h)) :
    (Surface.blitBlend blend dst src dx dy).pix x y = dst.pix x y := by
  simp only [Surface.blitBlend]
  rw [if_neg h]

/-- The Python float `(w - tw)/2` truncates, at the blit call, to the
natural centering offset `(w - tw) / 2` when the text fits. -/
theorem ratFloor_eq_floor (q : ℚ) : q.floor = ⌊q⌋ := by
  rw [Rat.floor_def', Rat.floor_def]

theorem pyInt_center (w tw : Nat) (h : tw ≤ w) :
    pyInt (Rat.divInt ((w : Int) - (tw : Int)) 2) = (((w - tw) / 2 : Nat) : Int) := by
  have hq : Rat.divInt ((w : Int) - (tw : Int)) 2 = ((w - tw : Nat) : ℚ) / 2 := by
    rw [Rat.divInt_eq_div]
    push_cast [h]
    ring
  rw [hq]
  unfold pyInt
  rw [if_pos (by positivity), ratFloor_eq_floor]
  rw [Int.floor_eq_iff]
  constructor
  · rw [le_div_iff₀ (by norm_num)]
    push_cast
    exact_mod_cast Nat.div_mul_le_self (w - tw) 2
  · rw [div_lt_iff₀ (by norm_num)]
    push_cast
    exact_mod_cast (by omega : (w - tw) < ((w - tw) / 2 + 1) * 2)

theorem Label.erase_step_none (s : Label) : s.erase_step none = s.surf.blit s.bgsurf 0 0 := rfl

theorem Label.make_surf_eq_of_changed (env : Env) (s : Label) (old : Option String)
    (h : s.changed = true) :
    Label.make_surf env s old
      = { s with surf :=
          (Surface.blitBlend env.blend (s.erase_step old) (s.font.render s._text).1
            (pyInt (s.text_offsets s._text).x) (pyInt (s.text_offsets s._text).y)) } := by
  unfold Label.make_surf
  rw [if_neg (by simp [h])]

theorem Label.text_offsets_congr (s t : Label) (h1 : s.w = t.w) (h2 : s.h = t.h)
    (h3 : s.font = t.font) (txt : String) : s.text_offsets txt = t.text_offsets txt := by
  unfold Label.text_offsets
  rw [h1, h2, h3]

/-- **C5.** Calling the recompose step twice in succession without an
intervening text change produces a byte-identical surface to calling it
once, and when the widget is not dirty `make_surf` is a no-op.  (The second
call is not the early-return case — `changed` stays true — but re-executing
the full-background blit and the glyph blit reproduces the same pixels.)
The hypotheses are the constructor-established invariants: the current text
fits the widget bounds and the background surface covers the widget. -/
theorem make_surf_idempotent (env : Env) (s : Label)
    (hfw : (s.font.get_rect s._text).w ≤ s.w) (hfh : (s.font.get_rect s._text).h ≤ s.h)
    (hbw : s.w ≤ s.bgsurf.w) (hbh : s.h ≤ s.bgsurf.h) :
    Surface.EqOn (Label.make_surf env (Label.make_surf env s none) none).surf
      (Label.make_surf env s none).surf
    ∧ (s.changed = false → ∀ old, Label.make_surf env s old = s) := by
  refine ⟨?_, fun h old => by unfold Label.make_surf; rw [if_pos h]⟩
  by_cases hc : s.changed = false
  · have h1 : Label.make_surf env s none = s := by
      unfold Label.make_surf; rw [if_pos hc]
    rw [h1, h1]
    exact ⟨rfl, rfl, fun _ _ _ _ => rfl⟩
  · have hct : s.changed = true := by revert hc; cases s.changed <;> simp
    have hct1 : (Label.make_surf env s none).changed = true := by
      rw [Label.make_surf_changed, hct]
    have e1 : (Label.make_surf env s none).surf
        = Surface.blitBlend env.blend (s.surf.blit s.bgsurf 0 0)
            (s.font.render s._text).1 (pyInt (s.text_offsets s._text).x)
            (pyInt (s.text_offsets s._text).y) := by
      rw [Label.make_surf_eq_of_changed env s none hct]
      rfl
    have etoff : (Label.make_surf env s none).text_offsets s._text
        = s.text_offsets s._text :=
      Label.text_offsets_congr _ s (Label.make_surf_w env s none) (Label.make_surf_h env s none)
        (Label.make_surf_font env s none) s._text
    have e2 : (Label.make_surf env (Label.make_surf env s none) none).surf
        = Surface.blitBlend env.blend
            ((Label.make_surf env s none).surf.blit s.bgsurf 0 0)
            (s.font.render s._text).1 (pyInt (s.text_offsets s._text).x)
            (pyInt (s.text_offsets s._text).y) := by
      rw [Label.make_surf_eq_of_changed env (Label.make_surf env s none) none hct1]
      dsimp only
      rw [Label.erase_step_none, Label.make_surf_bgsurf, Label.make_surf_font,
        Label.make_surf_text, etoff]
    have hdx : pyInt (s.text_offsets s._text).x
        = (((s.w - (s.font.get_rect s._text).w) / 2 : Nat) : Int) :=
      pyInt_center s.w (s.font.get_rect s._text).w hfw
    have hdy : pyInt (s.text_offsets s._text).y
        = (((s.h - (s.font.get_rect s._text).h) / 2 : Nat) : Int) :=
      pyInt_center s.h (s.font.get_rect s._text).h hfh
    have hgw : ((s.font.render s._text).1).w = (s.font.get_rect s._text).w := rfl
    have hgh : ((s.font.render s._text).1).h = (s.font.get_rect s._text).h := rfl
    refine ⟨?_, ?_, ?_⟩
    · rw [e2, e1]
      rfl
    · rw [e2, e1]
      rfl
    · intro x _ y _
      rw [e2, e1]
      by_cases hr : pyInt (s.text_offsets s._text).x ≤ (x : Int)
          ∧ (x : Int) < pyInt (s.text_offsets s._text).x + ((s.font.render s._text).1).w
          ∧ pyInt (s.text_offsets s._text).y ≤ (y : Int)
          ∧ (y : Int) < pyInt (s.text_offsets s._text).y + ((s.font.render s._text).1).h
      · have hxw : x < s.bgsurf.w := by
          have h2' := hr.2.1
          rw [hdx, hgw] at h2'
          omega
        have hyh : y < s.bgsurf.h := by
          have h4' := hr.2.2.2
          rw [hdy, hgh] at h4'
          omega
        rw [blitBlend_pix_in env.blend _ _ _ _ x y hr.1 hr.2.1 hr.2.2.1 hr.2.2.2]
        rw [blitBlend_pix_in env.blend _ _ _ _ x y hr.1 hr.2.1 hr.2.2.1 hr.2.2.2]
        congr 1
        rw [blit_pix_in _ _ x y hxw hyh]
        rw [blit_pix_in _ _ x y hxw hyh]
      · rw [blitBlend_pix_out env.blend _ _ _ _ x y hr]
        rw [blitBlend_pix_out env.blend _ _ _ _ x y hr]
        by_cases hcov : x < s.bgsurf.w ∧ y < s.bgsurf.h
        · rw [blit_pix_in _ _ x y hcov.1 hcov.2]
          rw [blit_pix_in _ _ x y hcov.1 hcov.2]
        · have hout : s.bgsurf.w ≤ x ∨ s.bgsurf.h ≤ y := by omega
          rw [blit_pix_out _ _ x y hout]
          rw [blitBlend_pix_out env.blend _ _ _ _ x y hr]

theorem make_surf_idempotent_witness :
    ((c5w.font.get_rect c5w._text).w ≤ c5w.w ∧ (c5w.font.get_rect c5w._text).h ≤ c5w.h
      ∧ c5w.w ≤ c5w.bgsurf.w ∧ c5w.h ≤ c5w.bgsurf.h)
    ∧ Surface.EqOn (Label.make_surf envC (Label.make_surf envC c5w none) none).surf
        (Label.make_surf envC c5w none).surf
    ∧ (c5w.changed = false → ∀ old, Label.make_surf envC c5w old = c5w) :=
  ⟨by decide,
    make_surf_idempotent envC c5w (by decide) (by decide) (by decide) (by decide)⟩

/-- **C4 counterexample.** On a label whose background is a (non-uniform)
image, "AB" → "A" → "AB" is not pixel-identical to the direct "AB" render:
the erase blit takes the background sub-rectangle at the measured rect's
own position (the top-left corner) instead of the region under the old
text, so pixel (1,0) ends up RED where the direct render has GREEN. -/
theorem erase_residual_cex :
    c4chain.map (fun p => (p.2.surf.pix 1 0, p.1.surf.pix 1 0)) = some (RED, GREEN)
    ∧ RED ≠ GREEN :=
  ⟨by decide, by decide⟩

/-! ## Uniform-background composition lemmas -/

theorem uniform_draw (blend : Color → Color → Color) (f : FreetypeFont) (c : Color)
    (w h : Nat) (t : String) (base : Surface) (dx dy : Int)
    (hdx : dx = (((w - (f.get_rect t).w) / 2 : Nat) : Int))
    (hdy : dy = (((h - (f.get_rect t).h) / 2 : Nat) : Int))
    (hbw : base.w = w) (hbh : base.h = h)
    (hbase : ∀ x, x < w → ∀ y, y < h → base.pix x y = c) :
    UniformComposed blend f c w h t (Surface.blitBlend blend base (f.render t).1 dx dy) := by
  subst hdx hdy
  refine ⟨hbw, hbh, ?_⟩
  intro x hx y hy
  have hrw : ((f.render t).1).w = (f.get_rect t).w := rfl
  have hrh : ((f.render t).1).h = (f.get_rect t).h := rfl
  by_cases hr : (w - (f.get_rect t).w) / 2 ≤ x
      ∧ x < (w - (f.get_rect t).w) / 2 + (f.get_rect t).w
      ∧ (h - (f.get_rect t).h) / 2 ≤ y ∧ y < (h - (f.get_rect t).h) / 2 + (f.get_rect t).h
  · rw [if_pos hr]
    obtain ⟨h1, h2, h3, h4⟩ := hr
    rw [blitBlend_pix_in blend base (f.render t).1 _ _ x y (by omega) (by rw [hrw]; omega)
      (by omega) (by rw [hrh]; omega)]
    rw [hbase x hx y hy]
    have hi : ((x : Int) - (((w - (f.get_rect t).w) / 2 : Nat) : Int)).toNat
        = x - (w - (f.get_rect t).w) / 2 := by omega
    have hj : ((y : Int) - (((h - (f.get_rect t).h) / 2 : Nat) : Int)).toNat
        = y - (h - (f.get_rect t).h) / 2 := by omega
    rw [hi, hj]
  · rw [if_neg hr]
    rw [blitBlend_pix_out blend base (f.render t).1 _ _ x y
      (by rintro ⟨h1, h2, h3, h4⟩; rw [hrw] at h2; rw [hrh] at h4
          exact hr ⟨by omega, by omega, by omega, by omega⟩)]
    exact hbase x hx y hy

theorem uniform_partial_erase (blend : Color → Color → Color) (f : FreetypeFont) (c : Color)
    (w h : Nat) (told : String) (surf B : Surface) (dx dy : Int)
    (hdx : dx = (((w - (f.get_rect told).w) / 2 : Nat) : Int))
    (hdy : dy = (((h - (f.get_rect told).h) / 2 : Nat) : Int))
    (hcomp : UniformComposed blend f c w h told surf)
    (hBw : B.w = w) (hBh : B.h = h)
    (hB : ∀ x, x < w → ∀ y, y < h → B.pix x y = c)
    (hncx : 0 ≤ (f.get_rect told).x)
    (hncx2 : (f.get_rect told).x + ((f.get_rect told).w : Int) ≤ (w : Int))
    (hncy : 0 ≤ (f.get_rect told).y)
    (hncy2 : (f.get_rect told).y + ((f.get_rect told).h : Int) ≤ (h : Int)) :
    ∀ x, x < w → ∀ y, y < h →
      (Surface.blitArea surf B dx dy (f.get_rect told).x (f.get_rect told).y
          (f.get_rect told).w (f.get_rect told).h).pix x y = c := by
  obtain ⟨hsw, hsh, hpix⟩ := hcomp
  subst hdx hdy
  intro x hx y hy
  simp only [Surface.blitArea]
  by_cases hreg : (w - (f.get_rect told).w) / 2 ≤ x
      ∧ x < (w - (f.get_rect told).w) / 2 + (f.get_rect told).w
      ∧ (h - (f.get_rect told).h) / 2 ≤ y
      ∧ y < (h - (f.get_rect told).h) / 2 + (f.get_rect told).h
  · obtain ⟨h1, h2, h3, h4⟩ := hreg
    rw [if_pos ⟨by omega, by omega, by omega, by omega, by omega, by omega, by omega, by omega⟩]
    exact hB _ (by omega) _ (by omega)
  · rw [if_neg (by
        rintro ⟨g1, g2, g3, g4, g5, g6, g7, g8⟩
        exact hreg ⟨by omega, by omega, by omega, by omega⟩)]
    rw [hpix x hx y hy, if_neg hreg]

theorem UniformComposed_eqOn (blend : Color → Color → Color) (f : FreetypeFont) (c : Color)
    (w h : Nat) (t : String) (u v : Surface)
    (hu : UniformComposed blend f c w h t u) (hv : UniformComposed blend f c w h t v) :
    Surface.EqOn u v := by
  obtain ⟨uw, uh, up⟩ := hu
  obtain ⟨vw, vh, vp⟩ := hv
  refine ⟨by rw [uw, vw], by rw [uh, vh], ?_⟩
  intro x hx y hy
  rw [uw] at hx
  rw [uh] at hy
  rw [up x hx y hy, vp x hx y hy]

theorem Label.erase_step_some (s : Label) (t : String) (ht : t.isEmpty = false) :
    s.erase_step (some t)
      = s.surf.blitArea s.bgsurf (pyInt (s.text_offsets t).x) (pyInt (s.text_offsets t).y)
          (s.font.get_rect t).x (s.font.get_rect t).y (s.font.get_rect t).w
          (s.font.get_rect t).h := by
  unfold Label.erase_step
  rw [if_neg (by simp [ht])]
  rfl

theorem Label.set_text_ok (env : Env) (s : Label) (str : String) (s' : Label)
    (hok : Label.set_text env s str = .ok s') :
    (s.font.get_rect str).w ≤ s.w ∧ (s.font.get_rect str).h ≤ s.h
    ∧ s' = Label.make_surf env { s with changed := true, _text := str } (some s._text) := by
  unfold Label.set_text at hok
  dsimp only at hok
  split at hok
  · exact Except.noConfusion hok
  · next hcond =>
    push_neg at hcond
    injection hok with h
    exact ⟨Nat.le_of_not_lt (by exact_mod_cast fun hlt => absurd hlt (not_lt.mpr hcond.1)),
      Nat.le_of_not_lt (by exact_mod_cast fun hlt => absurd hlt (not_lt.mpr hcond.2)), h.symm⟩

theorem Label.init_fill_ok (env : Env) (w h : Nat) (alpha : Option Bool) (text : String)
    (c fg : Color) (fname : Option String) (fs : Nat) (ul bold : Bool) (s0 : Label)
    (hok : Label.init env w h alpha text (some c) fg fname fs ul bold none = .ok s0) :
    (s0.font.get_rect text).w ≤ w ∧ (s0.font.get_rect text).h ≤ h
    ∧ s0.w = w ∧ s0.h = h ∧ s0._text = text ∧ s0.changed = true
    ∧ s0.bgsurf = (mkSurface w h).fill c
    ∧ s0.font = { env.mkFont fname fs with underline := ul, strong := bold, fgcolor := fg }
    ∧ s0.surf = Surface.blitBlend env.blend
        (((mkSurface w h).fill c).blit ((mkSurface w h).fill c) 0 0)
        (s0.font.render text).1
        (pyInt (Rat.divInt ((w : Int) - ((s0.font.get_rect text).w : Int)) 2))
        (pyInt (Rat.divInt ((h : Int) - ((s0.font.get_rect text).h : Int)) 2)) := by
  unfold Label.init at hok
  dsimp only at hok
  rw [if_neg (by simp)] at hok
  rw [if_neg (by simp [bgTruthy])] at hok
  split at hok
  · exact Except.noConfusion hok
  · next hcond =>
    push_neg at hcond
    injection hok with hs0
    subst hs0
    exact ⟨hcond.1, hcond.2, rfl, rfl, rfl, rfl, rfl, rfl, rfl⟩

theorem uniform_set_text_step (env : Env) (s s' : Label) (b : String) (c : Color)
    (ht0 : s._text.isEmpty = false)
    (hbg : s.bgsurf = (mkSurface s.w s.h).fill c)
    (hcomp : UniformComposed env.blend s.font c s.w s.h s._text s.surf)
    (hncx : 0 ≤ (s.font.get_rect s._text).x)
    (hncx2 : (s.font.get_rect s._text).x + ((s.font.get_rect s._text).w : Int) ≤ (s.w : Int))
    (hncy : 0 ≤ (s.font.get_rect s._text).y)
    (hncy2 : (s.font.get_rect s._text).y + ((s.font.get_rect s._text).h : Int) ≤ (s.h : Int))
    (hok : Label.set_text env s b = .ok s') :
    UniformComposed env.blend s.font c s.w s.h b s'.surf
    ∧ s'.w = s.w ∧ s'.h = s.h ∧ s'._text = b ∧ s'.font = s.font
    ∧ s'.bgsurf = (mkSurface s.w s.h).fill c ∧ s'.changed = true := by
  obtain ⟨hfwb, hfhb, hs'⟩ := Label.set_text_ok env s b s' hok
  subst hs'
  have hfwa : (s.font.get_rect s._text).w ≤ s.w := by omega
  have hfha : (s.font.get_rect s._text).h ≤ s.h := by omega
  have hBw : s.bgsurf.w = s.w := by rw [hbg]; rfl
  have hBh : s.bgsurf.h = s.h := by rw [hbg]; rfl
  have hB : ∀ x, x < s.w → ∀ y, y < s.h → s.bgsurf.pix x y = c := by
    intro x _ y _
    rw [hbg]
    rfl
  have es : (Label.make_surf env { s with changed := true, _text := b } (some s._text)).surf
      = Surface.blitBlend env.blend
          (({ s with changed := true, _text := b } : Label).erase_step (some s._text))
          (s.font.render b).1
          (pyInt (Rat.divInt ((s.w : Int) - ((s.font.get_rect b).w : Int)) 2))
          (pyInt (Rat.divInt ((s.h : Int) - ((s.font.get_rect b).h : Int)) 2)) := by
    rw [Label.make_surf_eq_of_changed env { s with changed := true, _text := b }
      (some s._text) rfl]
    rfl
  refine ⟨?_, ?_, ?_, ?_, ?_, ?_, ?_⟩
  · rw [es, Label.erase_step_some { s with changed := true, _text := b } s._text ht0]
    refine uniform_draw env.blend s.font c s.w s.h b _ _ _
      (pyInt_center s.w (s.font.get_rect b).w hfwb)
      (pyInt_center s.h (s.font.get_rect b).h hfhb) hcomp.1 hcomp.2.1 ?_
    exact uniform_partial_erase env.blend s.font c s.w s.h s._text s.surf s.bgsurf
      (pyInt (Rat.divInt ((s.w : Int) - ((s.font.get_rect s._text).w : Int)) 2))
      (pyInt (Rat.divInt ((s.h : Int) - ((s.font.get_rect s._text).h : Int)) 2))
      (pyInt_center s.w (s.font.get_rect s._text).w hfwa)
      (pyInt_center s.h (s.font.get_rect s._text).h hfha)
      hcomp hBw hBh hB hncx hncx2 hncy hncy2
  · rw [Label.make_surf_w]
  · rw [Label.make_surf_h]
  · rw [Label.make_surf_text]
  · rw [Label.make_surf_font]
  · rw [Label.make_surf_bgsurf]
    exact hbg
  · rw [Label.make_surf_changed]

/-- **C4 amended.** The erase-and-redraw round trip is pixel-exact for
labels whose background is a uniform fill (the `bgcolor` construction
path), provided the measured rectangles of both strings lie inside the
widget at their own rect positions, so the erase blit's source area is not
clipped: constructing with text `a`, setting text to `b` and back to `a`
yields a surface byte-identical to the surface right after construction.
(For non-uniform background images the claim fails — the erase blits the
background area at the measured rect's position, not the region under the
old text; see the counterexample.) -/
theorem erase_correct_uniform_bg (env : Env) (w h : Nat) (alpha : Option Bool)
    (a b : String) (c fg : Color) (fname : Option String) (fs : Nat) (ul bold : Bool)
    (s0 s1 s2 : Label)
    (hok : Label.init env w h alpha a (some c) fg fname fs ul bold none = .ok s0)
    (h1 : Label.set_text env s0 b = .ok s1)
    (h2 : Label.set_text env s1 a = .ok s2)
    (ha0 : a.isEmpty = false) (hb0 : b.isEmpty = false)
    (hrax : 0 ≤ (s0.font.get_rect a).x)
    (hrax2 : (s0.font.get_rect a).x + ((s0.font.get_rect a).w : Int) ≤ (w : Int))
    (hray : 0 ≤ (s0.font.get_rect a).y)
    (hray2 : (s0.font.get_rect a).y + ((s0.font.get_rect a).h : Int) ≤ (h : Int))
    (hrbx : 0 ≤ (s0.font.get_rect b).x)
    (hrbx2 : (s0.font.get_rect b).x + ((s0.font.get_rect b).w : Int) ≤ (w : Int))
    (hrby : 0 ≤ (s0.font.get_rect b).y)
    (hrby2 : (s0.font.get_rect b).y + ((s0.font.get_rect b).h : Int) ≤ (h : Int)) :
    Surface.EqOn s2.surf s0.surf := by
  obtain ⟨hfwa, hfha, hw0, hh0, ht0, hch0, hbg0, hfont0, hsurf0⟩ :=
    Label.init_fill_ok env w h alpha a c fg fname fs ul bold s0 hok
  have hcomp0 : UniformComposed env.blend s0.font c w h a s0.surf := by
    rw [hsurf0]
    refine uniform_draw env.blend s0.font c w h a _ _ _
      (pyInt_center w (s0.font.get_rect a).w hfwa)
      (pyInt_center h (s0.font.get_rect a).h hfha) rfl rfl ?_
    intro x hx y hy
    rw [blit_pix_in _ _ x y hx hy]
    rfl
  -- transport to the s0-field basis expected by the step lemma
  have hcomp0' : UniformComposed env.blend s0.font c s0.w s0.h s0._text s0.surf := by
    rw [hw0, hh0, ht0]
    exact hcomp0
  have step1 := uniform_set_text_step env s0 s1 b c
    (by rw [ht0]; exact ha0)
    (by rw [hw0, hh0]; exact hbg0)
    hcomp0'
    (by rw [ht0]; exact hrax)
    (by rw [ht0, hw0]; exact hrax2)
    (by rw [ht0]; exact hray)
    (by rw [ht0, hh0]; exact hray2)
    h1
  obtain ⟨hcomp1, hw1, hh1, ht1, hfont1, hbg1, hch1⟩ := step1
  have step2 := uniform_set_text_step env s1 s2 a c
    (by rw [ht1]; exact hb0)
    (by rw [hw1, hh1]; exact hbg1)
    (by rw [hw1, hh1, ht1, hfont1]; exact hcomp1)
    (by rw [ht1, hfont1]; exact hrbx)
    (by rw [ht1, hfont1, hw1, hw0]; exact hrbx2)
    (by rw [ht1, hfont1]; exact hrby)
    (by rw [ht1, hfont1, hh1, hh0]; exact hrby2)
    h2
  obtain ⟨hcomp2, _, _, _, _, _, _⟩ := step2
  have hcomp2' : UniformComposed env.blend s0.font c w h a s2.surf := by
    rw [← hfont1]
    have : s1.w = w := by rw [hw1, hw0]
    rw [← this]
    have : s1.h = h := by rw [hh1, hh0]
    rw [← this]
    exact hcomp2
  exact UniformComposed_eqOn env.blend s0.font c w h a s2.surf s0.surf hcomp2' hcomp0

theorem erase_correct_uniform_bg_witness :
    (Label.init envC 4 2 (some false) "AB" (some BLUE) BLACK none 20 false false none
        = .ok c4u0)
    ∧ Label.set_text envC c4u0 "A" = .ok c4u1
    ∧ Label.set_text envC c4u1 "AB" = .ok c4u2
    ∧ "AB".isEmpty = false ∧ "A".isEmpty = false
    ∧ (0 ≤ (c4u0.font.get_rect "AB").x
        ∧ (c4u0.font.get_rect "AB").x + ((c4u0.font.get_rect "AB").w : Int) ≤ ((4 : Nat) : Int)
        ∧ 0 ≤ (c4u0.font.get_rect "AB").y
        ∧ (c4u0.font.get_rect "AB").y + ((c4u0.font.get_rect "AB").h : Int) ≤ ((2 : Nat) : Int))
    ∧ (0 ≤ (c4u0.font.get_rect "A").x
        ∧ (c4u0.font.get_rect "A").x + ((c4u0.font.get_rect "A").w : Int) ≤ ((4 : Nat) : Int)
        ∧ 0 ≤ (c4u0.font.get_rect "A").y
        ∧ (c4u0.font.get_rect "A").y + ((c4u0.font.get_rect "A").h : Int) ≤ ((2 : Nat) : Int))
    ∧ Surface.EqOn c4u2.surf c4u0.surf := by
  refine ⟨rfl, rfl, rfl, rfl, rfl, ⟨by decide, by decide, by decide, by decide⟩,
    ⟨by decide, by decide, by decide, by decide⟩, ?_⟩
  exact erase_correct_uniform_bg envC 4 2 (some false) "AB" "A" BLUE BLACK none 20 false
    false c4u0 c4u1 c4u2 rfl rfl rfl rfl rfl (by decide) (by decide) (by decide) (by decide)
    (by decide) (by decide) (by decide) (by decide)
